import Mathlib

/-
Verification of the near-membrane secure proxy layer.

The development embeds, as executable Lean definitions:
  - the serialized secure proxy factory (outer-to-inner handler), including
    getPropertyDescriptor, getSecureDescriptor, installDescriptorIntoShadowTarget,
    copySecureOwnDescriptors and the full trap set of SecureProxyHandler;
  - the ReverseProxyHandler (inner-to-outer handler) with its initializer,
    apply and construct traps;
  - the evaluator returned by createSecureEnvironment in node-realm.ts with its
    error identity correction;
  - a model of the membrane environment identity maps (the environment module is
    external to the sources verified here and is modelled from the specification).

JavaScript values are represented by the inductive JSVal; machine-level details
(property keys are strings, prototype chains are finite and acyclic) follow the
host language semantics for ordinary objects. Calls that cross into foreign code
(the underlying real function, user getters and setters, the environment
translation functions) are parameters of the definitions, bundled in EnvOps.
-/

/-- A JavaScript value: undefined, null, a primitive (tagged by its string
rendering), an object reference, a function reference, or a TypeError instance
(the value produced by the bare TypeError() calls in the construct traps). -/
inductive JSVal where
  | undef
  | null
  | prim (tag : String)
  | obj (id : Nat)
  | fn (id : Nat)
  | typeError
deriving DecidableEq, Repr

/-- typeof v === "function" check used throughout the factory. -/
def isFunction : JSVal → Bool
  | .fn _ => true
  | _ => false

/-- Primitives cross the membrane unchanged; objects, functions and error
instances are reference values. -/
def isPrimitiveVal : JSVal → Bool
  | .obj _ => false
  | .fn _ => false
  | .typeError => false
  | _ => true

abbrev Key := String

/-- A property descriptor; absent fields are none, matching the result of
destructuring a JavaScript descriptor object where a missing field reads as
undefined. -/
structure Descr where
  value : Option JSVal
  writable : Option Bool
  get : Option JSVal
  set : Option JSVal
  enumerable : Option Bool
  configurable : Option Bool
deriving DecidableEq, Repr

/-- The observable shape of one ordinary object: its own property table and its
extensibility bit. -/
structure ObjShape where
  props : List (Key × Descr)
  extensible : Bool
deriving DecidableEq, Repr

/-- A shadow target: its own property table, its extensibility bit, and its
prototype chain (nearest prototype first; the empty list is a null prototype).
Prototype chains of ordinary objects are finite and acyclic, so a list is a
faithful rendering. -/
structure Shadow where
  props : List (Key × Descr)
  extensible : Bool
  protos : List ObjShape
deriving DecidableEq, Repr

/-- Object.getOwnPropertyDescriptor on a property table. -/
def lookupProp : List (Key × Descr) → Key → Option Descr
  | [], _ => none
  | (k, d) :: rest, key => if k = key then some d else lookupProp rest key

def removeProp : List (Key × Descr) → Key → List (Key × Descr)
  | [], _ => []
  | (k, d) :: rest, key => if k = key then rest else (k, d) :: removeProp rest key

/-- Install or replace the own descriptor for a key (Reflect.defineProperty on
a fresh or configurable slot). -/
def replaceProp : List (Key × Descr) → Key → Descr → List (Key × Descr)
  | [], key, d => [(key, d)]
  | (k0, d0) :: rest, key, d =>
      if k0 = key then (key, d) :: rest else (k0, d0) :: replaceProp rest key d

def defineOwn (sh : Shadow) (key : Key) (d : Descr) : Shadow :=
  { sh with props := replaceProp sh.props key d }

/-- The data descriptor created by a plain assignment to a missing property. -/
def dataDescr (v : JSVal) : Descr :=
  ⟨some v, some true, none, none, some true, some true⟩

/-- Walk a prototype chain looking for the first object carrying an own
descriptor for the key. -/
def walkChain : List ObjShape → Key → Option Descr
  | [], _ => none
  | o :: rest, key =>
      match lookupProp o.props key with
      | some d => some d
      | none => walkChain rest key

/-- Source getPropertyDescriptor: like Object.getOwnPropertyDescriptor but it
looks into the whole proto chain, starting at the object itself. -/
def getPropertyDescriptor (sh : Shadow) (key : Key) : Option Descr :=
  match lookupProp sh.props key with
  | some d => some d
  | none => walkChain sh.protos key

/-- The own level of a shadow viewed as the head of its full lookup chain. -/
def shadowChain (sh : Shadow) : List ObjShape :=
  ⟨sh.props, sh.extensible⟩ :: sh.protos

/-- Outcome of the strict-mode assignment shadowTarget[key] = value: the
updated object, a thrown TypeError, or diversion to a resolved setter. -/
inductive StrictSetOutcome where
  | ok (sh : Shadow)
  | thrown
  | callsSetter (f : JSVal)
deriving DecidableEq, Repr

/-- Strict-mode ordinary assignment shadowTarget[key] = value (OrdinarySet
with the shadow itself as receiver). Resolution walks the object and its
prototype chain for the first descriptor. A resolved data descriptor that is
non-writable throws; a writable one updates the own slot in place when the
key is own, and otherwise creates a fresh own data property, which throws
when the object is non-extensible. A resolved accessor diverts to its setter
when that is a function and throws otherwise. An unresolved key creates a
fresh own data property, throwing on a non-extensible object. -/
def strictSetShadow (sh : Shadow) (key : Key) (v : JSVal) : StrictSetOutcome :=
  match getPropertyDescriptor sh key with
  | some d =>
      if d.writable.isSome then
        if d.writable = some true then
          match lookupProp sh.props key with
          | some own => .ok (defineOwn sh key { own with value := some v })
          | none =>
              if sh.extensible then .ok (defineOwn sh key (dataDescr v)) else .thrown
        else .thrown
      else
        if isFunction (d.set.getD .undef) then .callsSetter (d.set.getD .undef)
        else .thrown
  | none =>
      if sh.extensible then .ok (defineOwn sh key (dataDescr v)) else .thrown

/-- Object.freeze on one descriptor: data properties become non-writable and
non-configurable, accessor properties become non-configurable. -/
def freezeDescr (d : Descr) : Descr :=
  if d.writable.isSome then { d with writable := some false, configurable := some false }
  else { d with configurable := some false }

/-- Object.seal on one descriptor. -/
def sealDescr (d : Descr) : Descr :=
  { d with configurable := some false }

def freezeShadow (sh : Shadow) : Shadow :=
  { sh with props := sh.props.map (fun kd => (kd.1, freezeDescr kd.2)), extensible := false }

def sealShadow (sh : Shadow) : Shadow :=
  { sh with props := sh.props.map (fun kd => (kd.1, sealDescr kd.2)), extensible := false }

/-- Reflect.setPrototypeOf: succeeds when the object is extensible or the
prototype is unchanged; otherwise reports false and leaves the object alone. -/
def reflectSetPrototypeOf (sh : Shadow) (p : List ObjShape) : Shadow × Bool :=
  if sh.protos = p then (sh, true)
  else if sh.extensible then ({ sh with protos := p }, true)
  else (sh, false)

/-- Reflect.deleteProperty on an ordinary object: true when the slot is absent
or configurable. -/
def reflectDeleteProperty (sh : Shadow) (key : Key) : Shadow × Bool :=
  match lookupProp sh.props key with
  | none => (sh, true)
  | some d =>
      if d.configurable = some true then ({ sh with props := removeProp sh.props key }, true)
      else (sh, false)

/-- Object.defineProperty on an ordinary object: throws (error result) when the
key exists non-configurably with a different descriptor, or when the key is
absent and the object is non-extensible. Redefinition of a configurable slot,
identical redefinition, and fresh definition on an extensible object succeed. -/
def objectDefineProperty (sh : Shadow) (key : Key) (d : Descr) : Except JSVal Shadow :=
  match lookupProp sh.props key with
  | some existing =>
      if existing.configurable = some true then .ok (defineOwn sh key d)
      else if existing = d then .ok sh
      else .error .typeError
  | none =>
      if sh.extensible then .ok (defineOwn sh key d) else .error .typeError

/-- The environment operations the handlers call out to. The environment module
is outside the verified sources, so its value translation functions, the shapes
it produces for translated prototypes, and the underlying real calls it reaches
are parameters. -/
structure EnvOps where
  getSecureValue : JSVal → JSVal
  getSecureFunction : JSVal → JSVal
  getSecureArray : List JSVal → List JSVal
  getRawValue : JSVal → JSVal
  getRawFunction : JSVal → JSVal
  getRawArray : List JSVal → List JSVal
  secProtoChain : JSVal → List ObjShape
  rawProtoChain : JSVal → List ObjShape
  applyFn : JSVal → JSVal → List JSVal → JSVal
  rawApplyFn : JSVal → JSVal → List JSVal → Except JSVal JSVal
  rawCtorFn : JSVal → List JSVal → JSVal → Except JSVal JSVal
  secApplyFn : JSVal → JSVal → List JSVal → Except JSVal JSVal
  secCtorFn : JSVal → List JSVal → Except JSVal JSVal

/-- The shape snapshot (TargetMeta) captured when a value first crosses. -/
structure TargetMeta where
  proto : JSVal
  descriptors : List (Key × Descr)
  isExtensible : Bool
  isSealed : Bool
  isFrozen : Bool
deriving DecidableEq, Repr

/-- Source getSecureDescriptor: translate one snapshot descriptor into the
sandbox realm, wrapping the value (or method), the getter and the setter. -/
def getSecureDescriptor (E : EnvOps) (d : Descr) : Descr :=
  if d.writable.isSome then
    let v := d.value.getD .undef
    { d with value := some (if isFunction v then E.getSecureFunction v else E.getSecureValue v) }
  else
    let d1 := if isFunction (d.set.getD .undef)
      then { d with set := some (E.getSecureFunction (d.set.getD .undef)) } else d
    if isFunction (d1.get.getD .undef)
      then { d1 with get := some (E.getSecureFunction (d1.get.getD .undef)) } else d1

/-- Source getReverseDescriptor: the mirrored translation toward the raw realm. -/
def getReverseDescriptor (E : EnvOps) (d : Descr) : Descr :=
  if d.writable.isSome then
    let v := d.value.getD .undef
    { d with value := some (if isFunction v then E.getRawFunction v else E.getRawValue v) }
  else
    let d1 := if isFunction (d.set.getD .undef)
      then { d with set := some (E.getRawFunction (d.set.getD .undef)) } else d
    if isFunction (d1.get.getD .undef)
      then { d1 with get := some (E.getRawFunction (d1.get.getD .undef)) } else d1

/-- Source installDescriptorIntoShadowTarget (the same logic appears once in
each of the two handler files): define the descriptor when the slot is fresh or
configurable, fall back to a plain value write on a writable slot, and ignore
the install on a non-configurable non-writable slot. -/
def installDescriptorIntoShadowTarget (sh : Shadow) (key : Key) (d : Descr) : Shadow :=
  match lookupProp sh.props key with
  | some existing =>
      if existing.configurable = some true then defineOwn sh key d
      else if existing.writable = some true then
        -- shadowTarget[key] = originalDescriptor.value on an own writable data
        -- slot: the strict assignment updates the stored value in place
        defineOwn sh key { existing with value := some (d.value.getD .undef) }
      else sh
  | none => defineOwn sh key d

/-- Source copySecureOwnDescriptors: translate and install every own snapshot
descriptor. -/
def copySecureOwnDescriptors (E : EnvOps) (sh : Shadow) : List (Key × Descr) → Shadow
  | [] => sh
  | (k, d) :: rest =>
      copySecureOwnDescriptors E (installDescriptorIntoShadowTarget sh k (getSecureDescriptor E d)) rest

/-- Source copyReverseOwnDescriptors. -/
def copyReverseOwnDescriptors (E : EnvOps) (sh : Shadow) : List (Key × Descr) → Shadow
  | [] => sh
  | (k, d) :: rest =>
      copyReverseOwnDescriptors E (installDescriptorIntoShadowTarget sh k (getReverseDescriptor E d)) rest

/-- The state of one SecureProxyHandler together with its shadow target and the
observable shape of the original raw target in its home realm. The inited flag
renders the self-replacement of the lazy initializer by a noop (true once the
replacement has happened); handlerFrozen renders the freeze of the handler at
the end of initialization. The raw field is carried so that the absence of any
cross-realm mutation by the traps is expressible: the source traps never touch
the original target object. -/
structure SecState where
  target : JSVal
  meta : TargetMeta
  inited : Bool
  handlerFrozen : Bool
  shadow : Shadow
  raw : ObjShape
deriving DecidableEq, Repr

/-- The lazy initializer of SecureProxyHandler (initialize in the source): a
noop once the method has been replaced; otherwise it replaces itself first
(inited := true is part of the produced state before any translated work is
observable), adjusts the shadow prototype chain, copies the translated own
descriptors, mirrors the frozen / sealed / non-extensible snapshot state, and
freezes the handler. -/
def SecureProxyHandler.init (E : EnvOps) (s : SecState) : SecState :=
  if s.inited then s
  else
    let sh1 := { s.shadow with protos := E.secProtoChain s.meta.proto }
    let sh2 := copySecureOwnDescriptors E sh1 s.meta.descriptors
    let sh3 :=
      if s.meta.isFrozen then freezeShadow sh2
      else if s.meta.isSealed then sealShadow sh2
      else if !s.meta.isExtensible then { sh2 with extensible := false }
      else sh2
    { s with inited := true, handlerFrozen := true, shadow := sh3 }

/-- Trap get: initialize, resolve the own-or-inherited descriptor, invoke a
getter with the secure receiver, otherwise return the stored value. -/
def SecureProxyHandler.get (E : EnvOps) (s : SecState) (key : Key) (receiver : JSVal) :
    JSVal × SecState :=
  let s1 := SecureProxyHandler.init E s
  match getPropertyDescriptor s1.shadow key with
  | none => (.undef, s1)
  | some desc =>
      let g := desc.get.getD .undef
      if isFunction g then (E.applyFn g receiver [], s1)
      else (desc.value.getD .undef, s1)

deriving instance DecidableEq for Except

/-- Result of the set trap: the boolean the trap returns or the TypeError the
strict-mode fall-through assignment throws out of it, the resulting handler
state, and the setter invocation it performed, when any (setter, receiver,
value). -/
structure SetResult where
  result : Except JSVal Bool
  state : SecState
  setterCall : Option (JSVal × JSVal × JSVal)
deriving DecidableEq, Repr

/-- The final statements of the set trap, shadowTarget[key] = value followed
by return true: the handler body is strict code, so a failing assignment
throws a TypeError out of the trap. The setter diversion of OrdinarySet is
unreachable from the trap, whose guards return before the assignment whenever
the resolved descriptor has a function setter; it is rendered here with the
trap receiver standing in for the shadow. -/
def setFallThrough (s1 : SecState) (key : Key) (value receiver : JSVal) : SetResult :=
  match strictSetShadow s1.shadow key value with
  | .ok sh => ⟨.ok true, { s1 with shadow := sh }, none⟩
  | .thrown => ⟨.error .typeError, s1, none⟩
  | .callsSetter f => ⟨.ok true, s1, some (f, receiver, value)⟩

/-- Trap set: initialize, resolve the own-or-inherited descriptor; refuse a
non-writable slot; call a setter when one is available; refuse a getter-only
accessor; refuse a fresh key on a non-extensible shadow; otherwise perform the
strict-mode assignment to the shadow and return true (the assignment itself
throws when it fails). -/
def SecureProxyHandler.set (E : EnvOps) (s : SecState) (key : Key) (value : JSVal)
    (receiver : JSVal) : SetResult :=
  let s1 := SecureProxyHandler.init E s
  match getPropertyDescriptor s1.shadow key with
  | some desc =>
      if desc.writable = some false then ⟨.ok false, s1, none⟩
      else
        let st := desc.set.getD .undef
        if isFunction st then ⟨.ok true, s1, some (st, receiver, value)⟩
        else if isFunction (desc.get.getD .undef) then ⟨.ok false, s1, none⟩
        else setFallThrough s1 key value receiver
  | none =>
      if !s1.shadow.extensible then ⟨.ok false, s1, none⟩
      else setFallThrough s1 key value receiver

/-- Trap deleteProperty: initialize, then Reflect.deleteProperty on the shadow. -/
def SecureProxyHandler.deleteProperty (E : EnvOps) (s : SecState) (key : Key) :
    Bool × SecState :=
  let s1 := SecureProxyHandler.init E s
  let r := reflectDeleteProperty s1.shadow key
  (r.2, { s1 with shadow := r.1 })

/-- Trap apply: read the target, initialize, translate the this argument and
the arguments to the raw realm, invoke the real function, translate the result
back; the catch block rethrows the caught value itself. -/
def SecureProxyHandler.apply (E : EnvOps) (s : SecState) (thisArg : JSVal)
    (argArray : List JSVal) : Except JSVal JSVal × SecState :=
  let s1 := SecureProxyHandler.init E s
  let rawThisArg := E.getRawValue thisArg
  let rawArgArray := E.getRawArray argArray
  match E.rawApplyFn s.target rawThisArg rawArgArray with
  | .ok raw => (.ok (E.getSecureValue raw), s1)
  | .error e => (.error e, s1)

/-- Result of a construct trap: what it returns or throws, the resulting
handler state, and whether the underlying real constructor was invoked. -/
structure CtorResult where
  result : Except JSVal JSVal
  state : SecState
  ctorInvoked : Bool
deriving DecidableEq, Repr

/-- Trap construct: initialize, throw a TypeError when newTarget is undefined,
otherwise translate the arguments and newTarget, invoke the real constructor
and translate the instance back; the catch block rethrows the caught value
itself. -/
def SecureProxyHandler.construct (E : EnvOps) (s : SecState) (argArray : List JSVal)
    (newTarget : JSVal) : CtorResult :=
  let s1 := SecureProxyHandler.init E s
  if newTarget = .undef then ⟨.error .typeError, s1, false⟩
  else
    let rawArgArray := E.getRawArray argArray
    let rawNewTarget := E.getRawValue newTarget
    match E.rawCtorFn s.target rawArgArray rawNewTarget with
    | .ok raw => ⟨.ok (E.getSecureValue raw), s1, true⟩
    | .error e => ⟨.error e, s1, true⟩

/-- Trap has: initialize, then the in operator on the shadow (own or inherited). -/
def SecureProxyHandler.has (E : EnvOps) (s : SecState) (key : Key) : Bool × SecState :=
  let s1 := SecureProxyHandler.init E s
  ((getPropertyDescriptor s1.shadow key).isSome, s1)

/-- Trap ownKeys: initialize, then Reflect.ownKeys on the shadow. -/
def SecureProxyHandler.ownKeys (E : EnvOps) (s : SecState) : List Key × SecState :=
  let s1 := SecureProxyHandler.init E s
  (s1.shadow.props.map (fun kd => kd.1), s1)

/-- Trap isExtensible: initialize, then Reflect.isExtensible on the shadow. -/
def SecureProxyHandler.isExtensible (E : EnvOps) (s : SecState) : Bool × SecState :=
  let s1 := SecureProxyHandler.init E s
  (s1.shadow.extensible, s1)

/-- Trap getOwnPropertyDescriptor: initialize, then the own descriptor of the
shadow. -/
def SecureProxyHandler.getOwnPropertyDescriptor (E : EnvOps) (s : SecState) (key : Key) :
    Option Descr × SecState :=
  let s1 := SecureProxyHandler.init E s
  (lookupProp s1.shadow.props key, s1)

/-- Trap getPrototypeOf: initialize, then the shadow prototype chain. -/
def SecureProxyHandler.getPrototypeOf (E : EnvOps) (s : SecState) :
    List ObjShape × SecState :=
  let s1 := SecureProxyHandler.init E s
  (s1.shadow.protos, s1)

/-- Trap setPrototypeOf: initialize, then Reflect.setPrototypeOf on the shadow
only. -/
def SecureProxyHandler.setPrototypeOf (E : EnvOps) (s : SecState) (p : List ObjShape) :
    Bool × SecState :=
  let s1 := SecureProxyHandler.init E s
  let r := reflectSetPrototypeOf s1.shadow p
  (r.2, { s1 with shadow := r.1 })

/-- Trap preventExtensions: initialize, then Reflect.preventExtensions on the
shadow only. -/
def SecureProxyHandler.preventExtensions (E : EnvOps) (s : SecState) : Bool × SecState :=
  let s1 := SecureProxyHandler.init E s
  (true, { s1 with shadow := { s1.shadow with extensible := false } })

/-- Trap defineProperty: initialize, then Object.defineProperty on the shadow
only (throwing for an existing incompatible non-configurable descriptor), and
return true on success. -/
def SecureProxyHandler.defineProperty (E : EnvOps) (s : SecState) (key : Key) (d : Descr) :
    Except JSVal Bool × SecState :=
  let s1 := SecureProxyHandler.init E s
  match objectDefineProperty s1.shadow key d with
  | .ok sh => (.ok true, { s1 with shadow := sh })
  | .error e => (.error e, s1)

/-- The state of one ReverseProxyHandler with its shadow target. -/
structure RevState where
  target : JSVal
  meta : TargetMeta
  handlerFrozen : Bool
  shadow : Shadow
deriving DecidableEq, Repr

/-- The initializer of ReverseProxyHandler (initialize in the source). Unlike
the secure handler it has no self-replacement guard: the body runs on every
call. It adjusts the shadow prototype chain, copies the translated own
descriptors, then unconditionally freezes the shadow and the handler, without
consulting the isFrozen / isSealed / isExtensible snapshot flags. -/
def ReverseProxyHandler.init (E : EnvOps) (s : RevState) : RevState :=
  let sh1 := (reflectSetPrototypeOf s.shadow (E.rawProtoChain s.meta.proto)).1
  let sh2 := copyReverseOwnDescriptors E sh1 s.meta.descriptors
  let sh3 := freezeShadow sh2
  { s with handlerFrozen := true, shadow := sh3 }

/-- Trap apply of ReverseProxyHandler: translate the this argument and the
arguments into the sandbox, invoke the real secure function, translate the
result back; the catch block rethrows the caught value itself. The source trap
does not invoke the initializer. -/
def ReverseProxyHandler.apply (E : EnvOps) (s : RevState) (thisArg : JSVal)
    (argArray : List JSVal) : Except JSVal JSVal × RevState :=
  let secThisArg := E.getSecureValue thisArg
  let secArgArray := E.getSecureArray argArray
  match E.secApplyFn s.target secThisArg secArgArray with
  | .ok sec => (.ok (E.getRawValue sec), s)
  | .error e => (.error e, s)

/-- Result of the reverse construct trap. -/
structure RevCtorResult where
  result : Except JSVal JSVal
  state : RevState
  ctorInvoked : Bool
deriving DecidableEq, Repr

/-- Trap construct of ReverseProxyHandler: throw a TypeError when newTarget is
undefined (checked before anything else), otherwise translate the arguments,
invoke the secure constructor (without forwarding newTarget) and translate the
instance back; the catch block rethrows the caught value itself. The source
trap does not invoke the initializer. -/
def ReverseProxyHandler.construct (E : EnvOps) (s : RevState) (argArray : List JSVal)
    (newTarget : JSVal) : RevCtorResult :=
  if newTarget = .undef then ⟨.error .typeError, s, false⟩
  else
    let secArgArray := E.getSecureArray argArray
    match E.secCtorFn s.target secArgArray with
    | .ok sec => ⟨.ok (E.getRawValue sec), s, true⟩
    | .error e => ⟨.error e, s, true⟩

/-- The evaluator returned by createSecureEnvironment in node-realm.ts. The
indirect eval of the source text, the instanceof Error test of the outer realm,
the message and constructor reads, the raw-constructor resolution plus
construction (none when any step of it throws), and the base Error constructor
are parameters: they are host realm operations. The body mirrors the nested
try blocks of the source: rethrow a caught value that is an instance of the
receiving realm Error; otherwise construct a fresh raw error of the
corresponding raw constructor with the same message; when that fails, fall
back to a plain base Error with the original message. -/
def createSecureEnvironmentEvaluate
    (secureIndirectEval : String → Except JSVal Unit)
    (instanceofRawError : JSVal → Bool)
    (messageOf : JSVal → String)
    (constructorOf : JSVal → JSVal)
    (constructRawError : JSVal → String → Option JSVal)
    (constructBaseError : String → JSVal)
    (sourceText : String) : Except JSVal Unit :=
  match secureIndirectEval sourceText with
  | .ok u => .ok u
  | .error e =>
      if instanceofRawError e then .error e
      else
        let message := messageOf e
        match constructRawError (constructorOf e) message with
        | some rawError => .error rawError
        | none => .error (constructBaseError message)

/-- Association lookup in an identity map (keys compared by value identity). -/
def lookupAssoc : List (JSVal × JSVal) → JSVal → Option JSVal
  | [], _ => none
  | (k, p) :: rest, v => if k = v then some p else lookupAssoc rest v

/-- Modelled from the spec: the Membrane Environment (the environment module is
not among the verified sources; only its callers are). It owns two identity
maps, raw-outer-value to inner-facing proxy (secMap) and raw-inner-value to
outer-facing proxy (rawMap), and a counter for fresh proxy identities.
Primitives are never entered into the maps. -/
structure SecureEnvironment where
  secMap : List (JSVal × JSVal)
  rawMap : List (JSVal × JSVal)
  counter : Nat
deriving DecidableEq, Repr

/-- Modelled from the spec: valueForOtherRealm toward the sandbox
(getSecureValue). A primitive passes unchanged; a value already in the
correspondence table returns the recorded proxy; otherwise a fresh proxy is
created and the correspondence is recorded in both directions before it is
returned. -/
def SecureEnvironment.getSecureValue (env : SecureEnvironment) (v : JSVal) :
    JSVal × SecureEnvironment :=
  if isPrimitiveVal v then (v, env)
  else
    match lookupAssoc env.secMap v with
    | some p => (p, env)
    | none =>
        let p : JSVal := .obj env.counter
        (p, ⟨(v, p) :: env.secMap, (p, v) :: env.rawMap, env.counter + 1⟩)

/-- Modelled from the spec: valueForOtherRealm toward the outer realm
(getRawValue), the mirrored direction. -/
def SecureEnvironment.getRawValue (env : SecureEnvironment) (v : JSVal) :
    JSVal × SecureEnvironment :=
  if isPrimitiveVal v then (v, env)
  else
    match lookupAssoc env.rawMap v with
    | some p => (p, env)
    | none =>
        let p : JSVal := .obj env.counter
        (p, ⟨(p, v) :: env.secMap, (v, p) :: env.rawMap, env.counter + 1⟩)

/-- A trivial environment: identity translations, empty translated prototype
chains, inert foreign calls. Used to instantiate theorems at concrete inputs. -/
def E0 : EnvOps :=
  ⟨id, id, id, id, id, id, fun _ => [], fun _ => [],
   fun _ _ _ => .undef,
   fun _ _ _ => .ok .undef, fun _ _ _ => .ok .undef,
   fun _ _ _ => .ok .undef, fun _ _ => .ok .undef⟩

/-- An environment whose getter oracle answers .prim "got" for the function
identity 2. -/
def E7 : EnvOps :=
  ⟨id, id, id, id, id, id, fun _ => [], fun _ => [],
   fun f _ _ => if f = .fn 2 then .prim "got" else .undef,
   fun _ _ _ => .ok .undef, fun _ _ _ => .ok .undef,
   fun _ _ _ => .ok .undef, fun _ _ => .ok .undef⟩

/-- An environment whose underlying raw call throws the outer realm error
instance .obj 77 and whose underlying secure call throws the sandbox error
instance .obj 55; the membrane value translations map each thrown instance to
a distinct wrapped counterpart, making visible whether a trap translates a
thrown value or leaks it unchanged. -/
def E8 : EnvOps :=
  ⟨fun v => if v = .obj 77 then .obj 99 else v, id, id,
   fun v => if v = .obj 55 then .obj 66 else v, id, id,
   fun _ => [], fun _ => [],
   fun _ _ _ => .undef,
   fun _ _ _ => .error (.obj 77), fun _ _ _ => .ok .undef,
   fun _ _ _ => .error (.obj 55), fun _ _ => .ok .undef⟩

def emptyShadow : Shadow := ⟨[], true, []⟩

def rawShape0 : ObjShape := ⟨[], true⟩

/-- Snapshot of an ordinary extensible object with no own properties. -/
def metaEmpty : TargetMeta := ⟨.null, [], true, false, false⟩

/-- Snapshot of a frozen object whose single own property is an accessor with
a setter (the shape of Object.freeze applied to an object with a set accessor). -/
def metaC6 : TargetMeta :=
  ⟨.null, [("a", ⟨none, none, none, some (.fn 5), some true, some true⟩)], false, true, true⟩

/-- Snapshot of the frozen data object with one own property a holding 1. -/
def metaC6w : TargetMeta :=
  ⟨.null, [("a", ⟨some (.prim "1"), some true, none, none, some true, some false⟩)], false, true, true⟩

/-- Uninitialized secure handler over the frozen accessor snapshot. -/
def stateC6 : SecState := ⟨.obj 1, metaC6, false, false, emptyShadow, rawShape0⟩

/-- Uninitialized secure handler over the frozen data snapshot. -/
def stateC6w : SecState := ⟨.obj 1, metaC6w, false, false, emptyShadow, rawShape0⟩

/-- The own descriptor of the property a of stateC6w after initialization. -/
def dC6w : Descr := ⟨some (.prim "1"), some false, none, none, some true, some false⟩

/-- An already-initialized secure handler whose shadow carries a non-writable
data property a. -/
def stateC1 : SecState :=
  ⟨.obj 1, metaEmpty, true, true,
   ⟨[("a", ⟨some (.prim "1"), some false, none, none, some true, some false⟩)], false, []⟩,
   rawShape0⟩

/-- An already-initialized secure handler whose shadow is non-extensible with
no own properties, while its prototype chain carries a writable data property
p: the shape of a frozen wrapped object inheriting a plain data property (for
example proxy.toString on a frozen object). -/
def stateC1x : SecState :=
  ⟨.obj 1, metaEmpty, true, true,
   ⟨[], false, [⟨[("p", dataDescr (.prim "0"))], true⟩]⟩,
   rawShape0⟩

/-- An already-initialized secure handler whose shadow carries a getter-only
accessor property g implemented by the function identity 2. -/
def stateC7 : SecState :=
  ⟨.obj 1, metaEmpty, true, true,
   ⟨[("g", ⟨none, none, some (.fn 2), none, some true, some true⟩)], true, []⟩,
   rawShape0⟩

/-- The descriptor of the property g of stateC7. -/
def dC7 : Descr := ⟨none, none, some (.fn 2), none, some true, some true⟩

/-- Uninitialized secure handler state over the plain extensible snapshot. -/
def stateC10 : SecState := ⟨.obj 1, metaEmpty, false, false, emptyShadow, rawShape0⟩

/-- Uninitialized reverse handler state over the plain extensible snapshot. -/
def revState0 : RevState := ⟨.fn 3, metaEmpty, false, emptyShadow⟩

/-- Secure handler state used to drive the apply trap at the failing input. -/
def stateC8 : SecState := ⟨.fn 4, metaEmpty, false, false, emptyShadow, rawShape0⟩

/-- Reverse handler state used to drive the apply trap at the failing input. -/
def revStateC8 : RevState := ⟨.fn 4, metaEmpty, false, emptyShadow⟩

theorem SecureProxyHandler.init_of_inited (E : EnvOps) (s : SecState) (h : s.inited = true) :
    SecureProxyHandler.init E s = s := by
  simp [SecureProxyHandler.init, h]

theorem SecureProxyHandler.init_inited (E : EnvOps) (s : SecState) :
    (SecureProxyHandler.init E s).inited = true := by
  by_cases h : s.inited <;> simp [SecureProxyHandler.init, h]

theorem SecureProxyHandler.init_idem (E : EnvOps) (s : SecState) :
    SecureProxyHandler.init E (SecureProxyHandler.init E s) = SecureProxyHandler.init E s :=
  SecureProxyHandler.init_of_inited E _ (SecureProxyHandler.init_inited E s)

theorem SecureProxyHandler.init_target (E : EnvOps) (s : SecState) :
    (SecureProxyHandler.init E s).target = s.target := by
  by_cases h : s.inited <;> simp [SecureProxyHandler.init, h]

theorem SecureProxyHandler.init_meta (E : EnvOps) (s : SecState) :
    (SecureProxyHandler.init E s).meta = s.meta := by
  by_cases h : s.inited <;> simp [SecureProxyHandler.init, h]

theorem SecureProxyHandler.init_raw (E : EnvOps) (s : SecState) :
    (SecureProxyHandler.init E s).raw = s.raw := by
  by_cases h : s.inited <;> simp [SecureProxyHandler.init, h]

theorem lookupProp_map_freeze (l : List (Key × Descr)) (key : Key) :
    lookupProp (l.map (fun kd => (kd.1, freezeDescr kd.2))) key
      = (lookupProp l key).map freezeDescr := by
  induction l with
  | nil => rfl
  | cons kd rest ih =>
      by_cases h : kd.1 = key <;> simp [lookupProp, h, ih]

theorem freezeDescr_configurable (d : Descr) :
    (freezeDescr d).configurable = some false := by
  by_cases h : d.writable.isSome <;> simp [freezeDescr, h]

theorem freezeDescr_writable (d : Descr) (h : (freezeDescr d).writable.isSome = true) :
    (freezeDescr d).writable = some false := by
  by_cases hw : d.writable.isSome
  · simp [freezeDescr, hw]
  · simp [freezeDescr, hw] at h

theorem lookupProp_freezeShadow (sh : Shadow) (k : Key) (d : Descr)
    (h : lookupProp (freezeShadow sh).props k = some d) :
    d.configurable = some false ∧ (d.writable.isSome = true → d.writable = some false) := by
  have h2 : (lookupProp sh.props k).map freezeDescr = some d := by
    rw [← lookupProp_map_freeze]; exact h
  rcases hl : lookupProp sh.props k with _ | d0
  · rw [hl] at h2; simp at h2
  · rw [hl] at h2
    simp at h2
    subst h2
    exact ⟨freezeDescr_configurable d0, freezeDescr_writable d0⟩

theorem defineOwn_extensible (sh : Shadow) (key : Key) (d : Descr) :
    (defineOwn sh key d).extensible = sh.extensible := rfl

theorem installDescriptor_extensible (sh : Shadow) (key : Key) (d : Descr) :
    (installDescriptorIntoShadowTarget sh key d).extensible = sh.extensible := by
  unfold installDescriptorIntoShadowTarget
  rcases lookupProp sh.props key with _ | e
  · rfl
  · by_cases h1 : e.configurable = some true
    · simp [h1, defineOwn]
    · by_cases h2 : e.writable = some true <;> simp [h1, h2, defineOwn]

theorem copySecure_extensible (E : EnvOps) (l : List (Key × Descr)) (sh : Shadow) :
    (copySecureOwnDescriptors E sh l).extensible = sh.extensible := by
  induction l generalizing sh with
  | nil => rfl
  | cons kd rest ih =>
      rcases kd with ⟨k, d⟩
      rw [copySecureOwnDescriptors, ih, installDescriptor_extensible]

/-- Claim C2: for every wrapped constructor, in both the outer-to-inner and the
inner-to-outer handler, invoking the construct trap with newTarget undefined (a
plain call rather than a new-expression) throws a TypeError and the underlying
real constructor is never invoked. -/
theorem claim2_construct_guard (E : EnvOps) (s : SecState) (a : List JSVal)
    (t : RevState) (b : List JSVal) :
    SecureProxyHandler.construct E s a .undef
      = ⟨.error .typeError, SecureProxyHandler.init E s, false⟩ ∧
    ReverseProxyHandler.construct E t b .undef = ⟨.error .typeError, t, false⟩ := by
  constructor <;> simp [SecureProxyHandler.construct, ReverseProxyHandler.construct]

/-- Claim C3: for every non-primitive value and either crossing direction,
wrapping the value twice yields the same proxy; the correspondence table maps
each raw value to at most one proxy (lookup is a function), and a crossing of a
value already in the table returns the recorded proxy. -/
theorem claim3_identity_stability (env : SecureEnvironment) (v : JSVal)
    (h : isPrimitiveVal v = false) :
    ((env.getSecureValue v).2.getSecureValue v).1 = (env.getSecureValue v).1 ∧
    ((env.getRawValue v).2.getRawValue v).1 = (env.getRawValue v).1 ∧
    (∀ p, lookupAssoc env.secMap v = some p → (env.getSecureValue v).1 = p) ∧
    (∀ p, lookupAssoc env.rawMap v = some p → (env.getRawValue v).1 = p) := by
  refine ⟨?_, ?_, ?_, ?_⟩
  · rcases hl : lookupAssoc env.secMap v with _ | p
    · simp [SecureEnvironment.getSecureValue, h, hl, lookupAssoc]
    · simp [SecureEnvironment.getSecureValue, h, hl]
  · rcases hl : lookupAssoc env.rawMap v with _ | p
    · simp [SecureEnvironment.getRawValue, h, hl, lookupAssoc]
    · simp [SecureEnvironment.getRawValue, h, hl]
  · intro p hp
    simp [SecureEnvironment.getSecureValue, h, hp]
  · intro p hp
    simp [SecureEnvironment.getRawValue, h, hp]

theorem claim3_witness :
    (((SecureEnvironment.mk [] [] 0).getSecureValue (.obj 5)).2.getSecureValue (.obj 5)).1
      = ((SecureEnvironment.mk [] [] 0).getSecureValue (.obj 5)).1 :=
  (claim3_identity_stability ⟨[], [], 0⟩ (.obj 5) rfl).1

/-- Claim C5: when evaluation of source text inside the sandbox throws, the
evaluator applies the three-step error identity correction before the exception
reaches the caller: a thrown value that is an instance of the receiving realm
Error is rethrown as-is; otherwise a fresh error is constructed in the
receiving realm from the raw constructor corresponding to the thrown value
constructor, with the same message; and when that construction fails for any
reason, a plain base Error carrying the original message is thrown instead. -/
theorem claim5_error_identity
    (evalF : String → Except JSVal Unit) (ie : JSVal → Bool) (msg : JSVal → String)
    (cof : JSVal → JSVal) (cre : JSVal → String → Option JSVal) (cbe : String → JSVal)
    (src : String) :
    (∀ u, evalF src = .ok u →
      createSecureEnvironmentEvaluate evalF ie msg cof cre cbe src = .ok u) ∧
    (∀ e, evalF src = .error e → ie e = true →
      createSecureEnvironmentEvaluate evalF ie msg cof cre cbe src = .error e) ∧
    (∀ e r0, evalF src = .error e → ie e = false → cre (cof e) (msg e) = some r0 →
      createSecureEnvironmentEvaluate evalF ie msg cof cre cbe src = .error r0) ∧
    (∀ e, evalF src = .error e → ie e = false → cre (cof e) (msg e) = none →
      createSecureEnvironmentEvaluate evalF ie msg cof cre cbe src
        = .error (cbe (msg e))) := by
  refine ⟨?_, ?_, ?_, ?_⟩
  · intro u h1
    simp [createSecureEnvironmentEvaluate, h1]
  · intro e h1 h2
    simp [createSecureEnvironmentEvaluate, h1, h2]
  · intro e r0 h1 h2 h3
    simp [createSecureEnvironmentEvaluate, h1, h2, h3]
  · intro e h1 h2 h3
    simp [createSecureEnvironmentEvaluate, h1, h2, h3]

theorem claim5_witness :
    createSecureEnvironmentEvaluate (fun _ => .error (.obj 1)) (fun _ => false)
      (fun _ => "boom") (fun _ => .undef) (fun _ _ => none) (fun m => .prim m) "src"
      = .error (.prim "boom") :=
  (claim5_error_identity (fun _ => .error (.obj 1)) (fun _ => false) (fun _ => "boom")
    (fun _ => .undef) (fun _ _ => none) (fun m => .prim m) "src").2.2.2 (.obj 1) rfl rfl rfl

/-- Claim C9: the setPrototypeOf, preventExtensions and defineProperty traps of
an outer-to-inner proxy mutate only the shadow target in the receiving realm:
the shape of the original wrapped object in its home realm (and the handler
target and snapshot) is left entirely unchanged, while the mutation lands on
the shadow. -/
theorem claim9_shadow_only_mutation (E : EnvOps) (s : SecState) (p : List ObjShape)
    (key : Key) (d : Descr) :
    ((SecureProxyHandler.setPrototypeOf E s p).2.raw = s.raw ∧
     (SecureProxyHandler.setPrototypeOf E s p).2.target = s.target ∧
     (SecureProxyHandler.setPrototypeOf E s p).2.meta = s.meta ∧
     (SecureProxyHandler.setPrototypeOf E s p).2.shadow
       = (reflectSetPrototypeOf (SecureProxyHandler.init E s).shadow p).1) ∧
    ((SecureProxyHandler.preventExtensions E s).2.raw = s.raw ∧
     (SecureProxyHandler.preventExtensions E s).2.target = s.target ∧
     (SecureProxyHandler.preventExtensions E s).2.meta = s.meta ∧
     (SecureProxyHandler.preventExtensions E s).2.shadow.extensible = false ∧
     (SecureProxyHandler.preventExtensions E s).1 = true) ∧
    ((SecureProxyHandler.defineProperty E s key d).2.raw = s.raw ∧
     (SecureProxyHandler.defineProperty E s key d).2.target = s.target ∧
     (SecureProxyHandler.defineProperty E s key d).2.meta = s.meta) := by
  refine ⟨⟨?_, ?_, ?_, ?_⟩, ⟨?_, ?_, ?_, ?_, ?_⟩, ?_⟩
  · simp [SecureProxyHandler.setPrototypeOf, SecureProxyHandler.init_raw]
  · simp [SecureProxyHandler.setPrototypeOf, SecureProxyHandler.init_target]
  · simp [SecureProxyHandler.setPrototypeOf, SecureProxyHandler.init_meta]
  · simp [SecureProxyHandler.setPrototypeOf]
  · simp [SecureProxyHandler.preventExtensions, SecureProxyHandler.init_raw]
  · simp [SecureProxyHandler.preventExtensions, SecureProxyHandler.init_target]
  · simp [SecureProxyHandler.preventExtensions, SecureProxyHandler.init_meta]
  · simp [SecureProxyHandler.preventExtensions]
  · simp [SecureProxyHandler.preventExtensions]
  · rcases hx : objectDefineProperty (SecureProxyHandler.init E s).shadow key d with sh | e2 <;>
      refine ⟨?_, ?_, ?_⟩ <;>
      simp [SecureProxyHandler.defineProperty, hx, SecureProxyHandler.init_raw,
        SecureProxyHandler.init_target, SecureProxyHandler.init_meta]

/-- Claim C8 (evidence): the apply traps never swallow an exception (the trap
throws exactly when the underlying real call threw), but they rethrow the
caught value itself with no identity correction: at the concrete failing input
the outer realm error instance .obj 77 crosses into the sandbox unchanged
through the secure apply trap even though the membrane translation of that
value differs, and symmetrically the sandbox error instance .obj 55 leaks to
the outer realm unchanged through the reverse apply trap. -/
theorem claim8_exception_identity :
    (∀ (E : EnvOps) (s : SecState) (th : JSVal) (a : List JSVal) (e : JSVal),
      (SecureProxyHandler.apply E s th a).1 = .error e ↔
        E.rawApplyFn s.target (E.getRawValue th) (E.getRawArray a) = .error e) ∧
    (∀ (E : EnvOps) (t : RevState) (th : JSVal) (a : List JSVal) (e : JSVal),
      (ReverseProxyHandler.apply E t th a).1 = .error e ↔
        E.secApplyFn t.target (E.getSecureValue th) (E.getSecureArray a) = .error e) ∧
    (SecureProxyHandler.apply E8 stateC8 .undef []).1 = .error (.obj 77) ∧
    E8.getSecureValue (.obj 77) = .obj 99 ∧
    (JSVal.obj 77 ≠ JSVal.obj 99) ∧
    (ReverseProxyHandler.apply E8 revStateC8 .undef []).1 = .error (.obj 55) ∧
    E8.getRawValue (.obj 55) = .obj 66 ∧
    (JSVal.obj 55 ≠ JSVal.obj 66) := by
  refine ⟨?_, ?_, rfl, rfl, by decide, rfl, rfl, by decide⟩
  · intro E s th a e
    rcases hx : E.rawApplyFn s.target (E.getRawValue th) (E.getRawArray a) with u | e2 <;>
      simp [SecureProxyHandler.apply, hx]
  · intro E t th a e
    rcases hx : E.secApplyFn t.target (E.getSecureValue th) (E.getSecureArray a) with u | e2 <;>
      simp [ReverseProxyHandler.apply, hx]

/-- Claim C10: the initializer of ReverseProxyHandler unconditionally freezes
the shadow target (non-extensible, all own descriptors non-configurable and,
for data properties, non-writable) and the handler itself, regardless of the
isFrozen / isSealed / isExtensible snapshot flags; unlike the outer-to-inner
handler, whose initializer leaves the shadow extensible when the snapshot is
extensible and neither frozen nor sealed. -/
theorem claim10_reverse_always_frozen (E : EnvOps) (s : RevState) (t : SecState)
    (h1 : t.meta.isFrozen = false) (h2 : t.meta.isSealed = false)
    (h3 : t.meta.isExtensible = true) (h4 : t.shadow.extensible = true) :
    (ReverseProxyHandler.init E s).shadow.extensible = false ∧
    (∀ k d, lookupProp (ReverseProxyHandler.init E s).shadow.props k = some d →
      d.configurable = some false ∧ (d.writable.isSome = true → d.writable = some false)) ∧
    (ReverseProxyHandler.init E s).handlerFrozen = true ∧
    (SecureProxyHandler.init E t).shadow.extensible = true := by
  refine ⟨?_, ?_, ?_, ?_⟩
  · simp [ReverseProxyHandler.init, freezeShadow]
  · intro k d hd
    simp only [ReverseProxyHandler.init] at hd
    exact lookupProp_freezeShadow _ k d hd
  · simp [ReverseProxyHandler.init]
  · by_cases hI : t.inited
    · rw [SecureProxyHandler.init_of_inited E t hI]
      exact h4
    · simp [SecureProxyHandler.init, hI, h1, h2, h3, copySecure_extensible, h4]

theorem claim10_witness :
    (ReverseProxyHandler.init E0 revState0).shadow.extensible = false ∧
    (SecureProxyHandler.init E0 stateC10).shadow.extensible = true :=
  ⟨(claim10_reverse_always_frozen E0 revState0 stateC10 rfl rfl rfl rfl).1,
   (claim10_reverse_always_frozen E0 revState0 stateC10 rfl rfl rfl rfl).2.2.2⟩

/-- Claim C4 (counterexample): the apply trap of ReverseProxyHandler does not
invoke the initializer: at a concrete uninitialized reverse handler the trap
leaves the handler state exactly as it was, although running the initializer
on that state would have changed it (frozen shadow and handler). This refutes
the claim that in both handler directions every trap operation invokes the
initializer first. -/
theorem claim4_counterexample :
    (ReverseProxyHandler.apply E0 revState0 .undef []).2 = revState0 ∧
    ReverseProxyHandler.init E0 revState0 ≠ revState0 := by
  refine ⟨rfl, ?_⟩
  decide

/-- Claim C4 (amended): in the outer-to-inner handler the lazy initializer is
idempotent (the replacement flag is set in the produced state, so a second run
is a noop) and every one of the thirteen traps behaves exactly as it does on
the already-initialized state; in the inner-to-outer handler the two traps
(apply and construct) leave the handler state untouched, that is, they do not
run its initializer, and that initializer carries no self-replacement guard. -/
theorem claim4_lazy_init_amended :
    (∀ (E : EnvOps) (s : SecState),
      SecureProxyHandler.init E (SecureProxyHandler.init E s) = SecureProxyHandler.init E s
        ∧ (SecureProxyHandler.init E s).inited = true) ∧
    (∀ (E : EnvOps) (s : SecState) (key : Key) (r : JSVal),
      SecureProxyHandler.get E s key r
        = SecureProxyHandler.get E (SecureProxyHandler.init E s) key r) ∧
    (∀ (E : EnvOps) (s : SecState) (key : Key) (v r : JSVal),
      SecureProxyHandler.set E s key v r
        = SecureProxyHandler.set E (SecureProxyHandler.init E s) key v r) ∧
    (∀ (E : EnvOps) (s : SecState) (key : Key),
      SecureProxyHandler.deleteProperty E s key
        = SecureProxyHandler.deleteProperty E (SecureProxyHandler.init E s) key) ∧
    (∀ (E : EnvOps) (s : SecState) (th : JSVal) (a : List JSVal),
      SecureProxyHandler.apply E s th a
        = SecureProxyHandler.apply E (SecureProxyHandler.init E s) th a) ∧
    (∀ (E : EnvOps) (s : SecState) (a : List JSVal) (nt : JSVal),
      SecureProxyHandler.construct E s a nt
        = SecureProxyHandler.construct E (SecureProxyHandler.init E s) a nt) ∧
    (∀ (E : EnvOps) (s : SecState) (key : Key),
      SecureProxyHandler.has E s key
        = SecureProxyHandler.has E (SecureProxyHandler.init E s) key) ∧
    (∀ (E : EnvOps) (s : SecState),
      SecureProxyHandler.ownKeys E s
        = SecureProxyHandler.ownKeys E (SecureProxyHandler.init E s)) ∧
    (∀ (E : EnvOps) (s : SecState),
      SecureProxyHandler.isExtensible E s
        = SecureProxyHandler.isExtensible E (SecureProxyHandler.init E s)) ∧
    (∀ (E : EnvOps) (s : SecState) (key : Key),
      SecureProxyHandler.getOwnPropertyDescriptor E s key
        = SecureProxyHandler.getOwnPropertyDescriptor E (SecureProxyHandler.init E s) key) ∧
    (∀ (E : EnvOps) (s : SecState),
      SecureProxyHandler.getPrototypeOf E s
        = SecureProxyHandler.getPrototypeOf E (SecureProxyHandler.init E s)) ∧
    (∀ (E : EnvOps) (s : SecState) (p : List ObjShape),
      SecureProxyHandler.setPrototypeOf E s p
        = SecureProxyHandler.setPrototypeOf E (SecureProxyHandler.init E s) p) ∧
    (∀ (E : EnvOps) (s : SecState),
      SecureProxyHandler.preventExtensions E s
        = SecureProxyHandler.preventExtensions E (SecureProxyHandler.init E s)) ∧
    (∀ (E : EnvOps) (s : SecState) (key : Key) (d : Descr),
      SecureProxyHandler.defineProperty E s key d
        = SecureProxyHandler.defineProperty E (SecureProxyHandler.init E s) key d) ∧
    (∀ (E : EnvOps) (t : RevState) (th : JSVal) (a : List JSVal),
      (ReverseProxyHandler.apply E t th a).2 = t) ∧
    (∀ (E : EnvOps) (t : RevState) (a : List JSVal) (nt : JSVal),
      (ReverseProxyHandler.construct E t a nt).state = t) := by
  refine ⟨?_, ?_, ?_, ?_, ?_, ?_, ?_, ?_, ?_, ?_, ?_, ?_, ?_, ?_, ?_, ?_⟩
  · intro E s
    exact ⟨SecureProxyHandler.init_idem E s, SecureProxyHandler.init_inited E s⟩
  · intro E s key r
    simp [SecureProxyHandler.get, SecureProxyHandler.init_idem]
  · intro E s key v r
    simp [SecureProxyHandler.set, SecureProxyHandler.init_idem]
  · intro E s key
    simp [SecureProxyHandler.deleteProperty, SecureProxyHandler.init_idem]
  · intro E s th a
    simp [SecureProxyHandler.apply, SecureProxyHandler.init_idem,
      SecureProxyHandler.init_target]
  · intro E s a nt
    simp [SecureProxyHandler.construct, SecureProxyHandler.init_idem,
      SecureProxyHandler.init_target]
  · intro E s key
    simp [SecureProxyHandler.has, SecureProxyHandler.init_idem]
  · intro E s
    simp [SecureProxyHandler.ownKeys, SecureProxyHandler.init_idem]
  · intro E s
    simp [SecureProxyHandler.isExtensible, SecureProxyHandler.init_idem]
  · intro E s key
    simp [SecureProxyHandler.getOwnPropertyDescriptor, SecureProxyHandler.init_idem]
  · intro E s
    simp [SecureProxyHandler.getPrototypeOf, SecureProxyHandler.init_idem]
  · intro E s p
    simp [SecureProxyHandler.setPrototypeOf, SecureProxyHandler.init_idem]
  · intro E s
    simp [SecureProxyHandler.preventExtensions, SecureProxyHandler.init_idem]
  · intro E s key d
    simp [SecureProxyHandler.defineProperty, SecureProxyHandler.init_idem]
  · intro E t th a
    rcases hx : E.secApplyFn t.target (E.getSecureValue th) (E.getSecureArray a) with u | e <;>
      simp [ReverseProxyHandler.apply, hx]
  · intro E t a nt
    by_cases hnt : nt = .undef
    · simp [ReverseProxyHandler.construct, hnt]
    · rcases hx : E.secCtorFn t.target (E.getSecureArray a) with u | e <;>
        simp [ReverseProxyHandler.construct, hnt, hx]

/-- Claim C6 (counterexample): a frozen snapshot whose own property a is an
accessor carrying a setter: the set trap of the initialized proxy invokes the
setter and returns true, refuting the claim that every attempted own-property
mutation through the set trap of a frozen object returns false. -/
theorem claim6_counterexample :
    stateC6.meta.isFrozen = true ∧
    (SecureProxyHandler.set E0 stateC6 "a" (.prim "2") (.obj 9)).result = .ok true := by
  exact ⟨rfl, rfl⟩

/-- Claim C6 (amended): for every snapshot recording isFrozen, after
initialization the proxy isExtensible trap returns false, and every attempted
mutation of an own data property (a property whose descriptor carries a
writable field) through the set trap returns false, invokes no setter, and
leaves the stored property values unchanged. -/
theorem claim6_amended (E : EnvOps) (s : SecState) (key : Key) (v r : JSVal) (d : Descr)
    (hI : s.inited = false) (hF : s.meta.isFrozen = true)
    (hd : lookupProp (SecureProxyHandler.init E s).shadow.props key = some d)
    (hw : d.writable.isSome = true) :
    (SecureProxyHandler.isExtensible E s).1 = false ∧
    SecureProxyHandler.set E s key v r = ⟨.ok false, SecureProxyHandler.init E s, none⟩ := by
  have hsh : (SecureProxyHandler.init E s).shadow
      = freezeShadow (copySecureOwnDescriptors E
          { s.shadow with protos := E.secProtoChain s.meta.proto } s.meta.descriptors) := by
    simp [SecureProxyHandler.init, hI, hF]
  have hd2 := hd
  rw [hsh] at hd2
  have hwf : d.writable = some false := (lookupProp_freezeShadow _ key d hd2).2 hw
  have hgpd : getPropertyDescriptor (SecureProxyHandler.init E s).shadow key = some d := by
    simp [getPropertyDescriptor, hd]
  constructor
  · simp [SecureProxyHandler.isExtensible, hsh, freezeShadow]
  · simp [SecureProxyHandler.set, hgpd, hwf]

theorem claim6_amended_witness :
    (SecureProxyHandler.isExtensible E0 stateC6w).1 = false ∧
    SecureProxyHandler.set E0 stateC6w "a" (.prim "2") (.obj 9)
      = ⟨.ok false, SecureProxyHandler.init E0 stateC6w, none⟩ :=
  claim6_amended E0 stateC6w "a" (.prim "2") (.obj 9) dC6w rfl rfl rfl rfl

/-- Claim C1 (counterexample): the claim predicts that the set trap returns
true whenever the resolved descriptor is writable; at stateC1x the resolved
descriptor is an inherited writable data property with no getter and no
setter, none of the three claimed failure cases applies, yet the trap neither
returns true nor false: the strict-mode fall-through assignment on the
non-extensible shadow throws a TypeError out of the trap. -/
theorem claim1_counterexample :
    getPropertyDescriptor stateC1x.shadow "p" = some (dataDescr (.prim "0")) ∧
    (dataDescr (.prim "0")).writable = some true ∧
    (dataDescr (.prim "0")).get = none ∧
    (dataDescr (.prim "0")).set = none ∧
    lookupProp stateC1x.shadow.props "p" = none ∧
    stateC1x.shadow.extensible = false ∧
    (SecureProxyHandler.set E0 stateC1x "p" (.prim "2") (.obj 9)).result
      = .error .typeError := by
  exact ⟨rfl, rfl, rfl, rfl, rfl, rfl, rfl⟩

/-- Claim C1 (amended): for every property key and value, the set trap of an
initialized outer-to-inner proxy returns false exactly when the resolved
own-or-inherited descriptor is non-writable, or has a getter but no setter,
or when no descriptor exists anywhere on the chain and the shadow target is
non-extensible; when a setter exists it invokes the setter, leaving the
shadow unchanged, and returns true; in the remaining cases it performs the
strict-mode assignment to the shadow and returns true, except that the
assignment throws a TypeError out of the trap when the resolved writable data
descriptor is inherited and the shadow is non-extensible, or when the
resolved descriptor is an accessor with neither getter nor setter. -/
theorem claim1_set_trap_amended (E : EnvOps) (s : SecState) (key : Key) (v r : JSVal)
    (h : s.inited = true) :
    ((SecureProxyHandler.set E s key v r).result = .ok false ↔
      (∃ d, getPropertyDescriptor s.shadow key = some d ∧
        (d.writable = some false ∨
          (isFunction (d.get.getD .undef) = true ∧ isFunction (d.set.getD .undef) = false))) ∨
      (getPropertyDescriptor s.shadow key = none ∧ s.shadow.extensible = false)) ∧
    (∀ d, getPropertyDescriptor s.shadow key = some d →
      isFunction (d.set.getD .undef) = true → d.writable ≠ some false →
      SecureProxyHandler.set E s key v r = ⟨.ok true, s, some (d.set.getD .undef, r, v)⟩) ∧
    ((SecureProxyHandler.set E s key v r).result = .ok true →
      (SecureProxyHandler.set E s key v r).setterCall = none →
      ∃ sh, strictSetShadow s.shadow key v = .ok sh ∧
        (SecureProxyHandler.set E s key v r).state = { s with shadow := sh }) ∧
    ((SecureProxyHandler.set E s key v r).result = .error .typeError ↔
      ∃ d, getPropertyDescriptor s.shadow key = some d ∧
        d.writable ≠ some false ∧
        isFunction (d.set.getD .undef) = false ∧
        isFunction (d.get.getD .undef) = false ∧
        ((d.writable = some true ∧ lookupProp s.shadow.props key = none ∧
            s.shadow.extensible = false) ∨
          d.writable = none)) := by
  have hi : SecureProxyHandler.init E s = s := SecureProxyHandler.init_of_inited E s h
  refine ⟨?_, ?_, ?_, ?_⟩
  · rcases hd : getPropertyDescriptor s.shadow key with _ | d
    · by_cases hx : s.shadow.extensible
      · simp [SecureProxyHandler.set, setFallThrough, strictSetShadow, hi, hd, hx]
      · simp [SecureProxyHandler.set, hi, hd, hx]
    · by_cases hw : d.writable = some false
      · simp [SecureProxyHandler.set, hi, hd, hw]
      · by_cases hset : isFunction (d.set.getD .undef)
        · simp [SecureProxyHandler.set, hi, hd, hw, hset]
        · by_cases hget : isFunction (d.get.getD .undef)
          · simp [SecureProxyHandler.set, hi, hd, hw, hset, hget]
          · rcases hwv : d.writable with _ | b
            · simp [SecureProxyHandler.set, setFallThrough, strictSetShadow,
                hi, hd, hw, hset, hget, hwv]
            · rcases b with _ | _
              · rw [hwv] at hw
                simp at hw
              · rcases hown : lookupProp s.shadow.props key with _ | own
                · by_cases hx : s.shadow.extensible <;>
                    simp [SecureProxyHandler.set, setFallThrough, strictSetShadow,
                      hi, hd, hw, hset, hget, hwv, hown, hx]
                · simp [SecureProxyHandler.set, setFallThrough, strictSetShadow,
                    hi, hd, hw, hset, hget, hwv, hown]
  · intro d hd hsf hnw
    simp [SecureProxyHandler.set, hi, hd, hnw, hsf]
  · intro h1 h2
    rcases hd : getPropertyDescriptor s.shadow key with _ | d
    · by_cases hx : s.shadow.extensible
      · refine ⟨defineOwn s.shadow key (dataDescr v), ?_, ?_⟩ <;>
          simp [SecureProxyHandler.set, setFallThrough, strictSetShadow, hi, hd, hx]
      · simp [SecureProxyHandler.set, hi, hd, hx] at h1
    · by_cases hw : d.writable = some false
      · simp [SecureProxyHandler.set, hi, hd, hw] at h1
      · by_cases hset : isFunction (d.set.getD .undef)
        · simp [SecureProxyHandler.set, hi, hd, hw, hset] at h2
        · by_cases hget : isFunction (d.get.getD .undef)
          · simp [SecureProxyHandler.set, hi, hd, hw, hset, hget] at h1
          · rcases hwv : d.writable with _ | b
            · simp [SecureProxyHandler.set, setFallThrough, strictSetShadow,
                hi, hd, hw, hset, hget, hwv] at h1
            · rcases b with _ | _
              · rw [hwv] at hw
                simp at hw
              · rcases hown : lookupProp s.shadow.props key with _ | own
                · by_cases hx : s.shadow.extensible
                  · refine ⟨defineOwn s.shadow key (dataDescr v), ?_, ?_⟩ <;>
                      simp [SecureProxyHandler.set, setFallThrough, strictSetShadow,
                        hi, hd, hw, hset, hget, hwv, hown, hx]
                  · simp [SecureProxyHandler.set, setFallThrough, strictSetShadow,
                      hi, hd, hw, hset, hget, hwv, hown, hx] at h1
                · refine ⟨defineOwn s.shadow key { own with value := some v }, ?_, ?_⟩ <;>
                    simp [SecureProxyHandler.set, setFallThrough, strictSetShadow,
                      hi, hd, hw, hset, hget, hwv, hown]
  · rcases hd : getPropertyDescriptor s.shadow key with _ | d
    · by_cases hx : s.shadow.extensible <;>
        simp [SecureProxyHandler.set, setFallThrough, strictSetShadow, hi, hd, hx]
    · by_cases hw : d.writable = some false
      · simp [SecureProxyHandler.set, hi, hd, hw]
      · by_cases hset : isFunction (d.set.getD .undef)
        · simp [SecureProxyHandler.set, hi, hd, hw, hset]
        · by_cases hget : isFunction (d.get.getD .undef)
          · simp [SecureProxyHandler.set, hi, hd, hw, hset, hget]
          · rcases hwv : d.writable with _ | b
            · simp [SecureProxyHandler.set, setFallThrough, strictSetShadow,
                hi, hd, hw, hset, hget, hwv]
            · rcases b with _ | _
              · rw [hwv] at hw
                simp at hw
              · rcases hown : lookupProp s.shadow.props key with _ | own
                · by_cases hx : s.shadow.extensible <;>
                    simp [SecureProxyHandler.set, setFallThrough, strictSetShadow,
                      hi, hd, hw, hset, hget, hwv, hown, hx]
                · simp [SecureProxyHandler.set, setFallThrough, strictSetShadow,
                    hi, hd, hw, hset, hget, hwv, hown]

theorem claim1_witness :
    (SecureProxyHandler.set E0 stateC1 "a" (.prim "2") (.obj 9)).result = .ok false :=
  (claim1_set_trap_amended E0 stateC1 "a" (.prim "2") (.obj 9) rfl).1.mpr
    (Or.inl ⟨⟨some (.prim "1"), some false, none, none, some true, some false⟩,
      rfl, Or.inl rfl⟩)

/-- Claim C7: for every property key, the get trap of an initialized
outer-to-inner proxy resolves the first own-or-inherited descriptor found by
walking the shadow target and its prototype chain; when no descriptor exists
it returns undefined; when the descriptor has a getter function it returns the
result of invoking that getter with the receiver as this-value; otherwise it
returns the stored value of the descriptor. -/
theorem claim7_get_trap (E : EnvOps) (s : SecState) (key : Key) (r : JSVal)
    (h : s.inited = true) :
    getPropertyDescriptor s.shadow key = walkChain (shadowChain s.shadow) key ∧
    (SecureProxyHandler.get E s key r).2 = s ∧
    (getPropertyDescriptor s.shadow key = none →
      (SecureProxyHandler.get E s key r).1 = .undef) ∧
    (∀ d, getPropertyDescriptor s.shadow key = some d →
      isFunction (d.get.getD .undef) = true →
      (SecureProxyHandler.get E s key r).1 = E.applyFn (d.get.getD .undef) r []) ∧
    (∀ d, getPropertyDescriptor s.shadow key = some d →
      isFunction (d.get.getD .undef) = false →
      (SecureProxyHandler.get E s key r).1 = d.value.getD .undef) := by
  have hi : SecureProxyHandler.init E s = s := SecureProxyHandler.init_of_inited E s h
  refine ⟨?_, ?_, ?_, ?_, ?_⟩
  · rfl
  · rcases hd : getPropertyDescriptor s.shadow key with _ | d
    · simp [SecureProxyHandler.get, hi, hd]
    · by_cases hg : isFunction (d.get.getD .undef) <;>
        simp [SecureProxyHandler.get, hi, hd, hg]
  · intro hd
    simp [SecureProxyHandler.get, hi, hd]
  · intro d hd hg
    simp [SecureProxyHandler.get, hi, hd, hg]
  · intro d hd hg
    simp [SecureProxyHandler.get, hi, hd, hg]

theorem claim7_witness :
    (SecureProxyHandler.get E7 stateC7 "g" (.obj 4)).1 = E7.applyFn (.fn 2) (.obj 4) [] :=
  (claim7_get_trap E7 stateC7 "g" (.obj 4) rfl).2.2.2.1 dC7 rfl rfl
